import Mathlib

/-!
Shallow embedding of the Ephemeral Verified Sandbox subsystem of the
`adapter` repository, together with proofs settling the frozen claims
about its specification.

The embedded code lives in:
  * `src/test_oh.py` — `GitRepository`, `TemporalCodingRepository`
    (with the `run_tests`-gated `push_exam`), `generate_exam`;
  * `src/adapter/exam/renv.py` — `TemporalCodingRepository` (refactored copy),
    `RustCodingEnvironment` (`__enter__`/`__exit__` via an `ExitStack`,
    `push_exam` without a verification flag, `run_test`);
  * `src/adapter/exam/workspace.py` — `MountableDockerWorkspace._start_container`
    (port probing, docker availability check, container launch);
  * `src/create_coding_exam.py` — `generate_exam` orchestration and
    `process_topic` (per-topic attempt loop with lock-guarded results list).

Subprocess results (git, cargo, chmod, docker) are modelled as explicit
inputs: an exit code plus captured stdout/stderr.  Python exceptions are
modelled with `Except`/`PyResult`; the observable side effects of a call
(which git subcommands ran, whether a container was launched) are returned
as explicit event lists so that claims such as "no commit and no push
occurs" are statements about the produced trace.
-/

namespace Adapter

/-- Result of running one subprocess: exit code plus captured output. -/
structure ProcRun where
  exitCode : Nat
  stdout : String
  stderr : String
  deriving DecidableEq, Repr

/-- Python `e.stderr or e.stdout`: the stderr string unless it is empty. -/
def ProcRun.captured (r : ProcRun) : String :=
  if r.stderr = "" then r.stdout else r.stderr

/-- Observable git-level actions performed by a checkpoint call. -/
inductive GitEvent
  | add
  | status
  | cargoTest
  | commit
  | push
  | revParse
  deriving DecidableEq, Repr

/-- Errors raised by the temporal-repository layer; all of them are
`TemporalCodingRepositoryError` in the source, distinguished here by the
message they carry. -/
inductive RepoError
  | cargoTestFailed (captured : String)
  | notSetUp (msg : String)
  | cleanupFailed (msg : String)
  | gitCommandFailed (msg : String)
  deriving DecidableEq, Repr

/-- State of the cloned git repository as observed by `push_exam`:
the local branch history (most recent commit first), the remote branch
history, and whether `git status --porcelain` reports anything after
`git add .` has staged the working tree. -/
structure GitState where
  localCommits : List Nat
  remoteCommits : List Nat
  treeHasChanges : Bool
  deriving DecidableEq, Repr

/-- Value of `git rev-parse HEAD`: the most recent local commit. -/
def GitState.headCommit (st : GitState) : Nat :=
  st.localCommits.headD 0

/-- Identifier of the commit produced by the next `git commit`. -/
def GitState.freshCommit (st : GitState) : Nat :=
  st.localCommits.length + 1000

namespace TestOh

/-- Embedding of `TemporalCodingRepository.push_exam` from `src/test_oh.py` (lines
187-225): stage everything and read the porcelain status; on an empty
status return `rev-parse HEAD` (the pre-existing head, not `None`); if
`run_tests`, run `cargo test` and raise on a non-zero exit, carrying
`e.stderr or e.stdout`, without committing or pushing; otherwise commit,
push the branch to origin, and return the new head hash.  The cargo run
is an input (`test`); the returned event list records which git-level
actions actually executed. -/
def pushExam (st : GitState) (runTests : Bool) (test : ProcRun) :
    GitState × List GitEvent × Except RepoError Nat :=
  if st.treeHasChanges = false then
    (st, [.add, .status, .revParse], .ok st.headCommit)
  else if runTests && decide (test.exitCode ≠ 0) then
    (st, [.add, .status, .cargoTest],
      .error (.cargoTestFailed test.captured))
  else
    let h := st.freshCommit
    let events := if runTests then
        [GitEvent.add, .status, .cargoTest, .commit, .push, .revParse]
      else
        [GitEvent.add, .status, .commit, .push, .revParse]
    ({ localCommits := h :: st.localCommits,
       remoteCommits := h :: st.localCommits,
       treeHasChanges := false },
     events, .ok h)

end TestOh

namespace Renv

/-- Embedding of `RustCodingEnvironment.push_exam` from `src/adapter/exam/renv.py`
(lines 204-225): stage everything, read the porcelain status, return
`None` on an empty status; otherwise commit, push, and return the new
head hash.  The method has no verification flag and never runs the test
command. -/
def pushExam (st : GitState) :
    GitState × List GitEvent × Option Nat :=
  if st.treeHasChanges = false then
    (st, [.add, .status], none)
  else
    let h := st.freshCommit
    ({ localCommits := h :: st.localCommits,
       remoteCommits := h :: st.localCommits,
       treeHasChanges := false },
     [GitEvent.add, .status, .commit, .push, .revParse], some h)

end Renv

/-- Result of a Python call: either a value or a raised exception,
identified by its message. -/
inductive PyResult (α : Type) where
  | ok (a : α)
  | raised (e : String)
  deriving DecidableEq, Repr

/-- Semantics of `subprocess.run(..., check=True)`: raises `CalledProcessError` on a
non-zero exit code, otherwise returns the completed process. -/
def runChecked (r : ProcRun) : PyResult ProcRun :=
  if r.exitCode = 0 then .ok r
  else .raised ("CalledProcessError: " ++ r.captured)

/-- Embedding of `GitRepository.chmod_777` from `src/test_oh.py` (lines 91-97): run
`chmod -R 777` on the repository directory; a `CalledProcessError` is
caught, logged, and swallowed, so the method always returns normally. -/
def chmod777 (chmodRun : ProcRun) : PyResult Unit :=
  match runChecked chmodRun with
  | .ok _ => .ok ()
  | .raised _ => .ok ()

/-- Embedding of `GitRepository.checkout`: run the git checkout command (raising a
wrapped error on non-zero exit), then `chmod_777`. -/
def gitCheckout (gitRun chmodRun : ProcRun) : PyResult String :=
  match runChecked gitRun with
  | .raised _ => .raised ("Git command failed in repository: " ++ gitRun.captured)
  | .ok r =>
    match chmod777 chmodRun with
    | .raised e => .raised e
    | .ok () => .ok r.stdout

/-- Embedding of `GitRepository.add`: `chmod_777` first, then `git add <path>`. -/
def gitAdd (chmodRun gitRun : ProcRun) : PyResult String :=
  match chmod777 chmodRun with
  | .raised e => .raised e
  | .ok () =>
    match runChecked gitRun with
    | .raised _ => .raised ("Git command failed in repository: " ++ gitRun.captured)
    | .ok r => .ok r.stdout

/-- Tail of `TemporalCodingRepository.setup` after the clone, branch
creation and library clone have succeeded: the final permission fix
(`self.cloned_repo.chmod_777()`) and the return of `self`. -/
def setupFinish (chmodRun : ProcRun) : PyResult Unit :=
  match chmod777 chmodRun with
  | .raised e => .raised e
  | .ok () => .ok ()

/-- The two resources owned by a `RustCodingEnvironment` scope. -/
inductive Resource
  | tempRepo
  | workspace
  deriving DecidableEq, Repr

/-- How a `with` block exits. -/
inductive ExitKind
  | normal
  | exception
  | cancellation
  deriving DecidableEq, Repr

/-- Host-visible state touched by environment teardown, together with the
order in which releases were performed. -/
structure EnvState where
  containerRunning : Bool
  tempDirExists : Bool
  releaseTrace : List Resource
  deriving DecidableEq, Repr

/-- Releasing one resource: exiting the `MountableDockerWorkspace` context
stops the container; exiting the `TemporalCodingRepository` context runs
`cleanup()`, deleting the temporary directory. -/
def releaseResource : Resource → EnvState → EnvState
  | .workspace, s =>
    { s with containerRunning := false,
             releaseTrace := s.releaseTrace ++ [.workspace] }
  | .tempRepo, s =>
    { s with tempDirExists := false,
             releaseTrace := s.releaseTrace ++ [.tempRepo] }

/-- Registration order of `RustCodingEnvironment.__enter__` (renv.py lines
142-202): `enter_context(self._temp_repo)` first, then
`enter_context(self._workspace)`. -/
def renvEnterStack : List Resource :=
  ([] ++ [.tempRepo]) ++ [.workspace]

/-- Semantics of `ExitStack.__exit__` as delegated to by `RustCodingEnvironment.__exit__`
(renv.py lines 246-247): the registered context exits run in reverse
registration order, whatever exception information (if any) the enclosing
`with` block exited with. -/
def exitStackUnwind (_k : ExitKind) (stack : List Resource)
    (s : EnvState) : EnvState :=
  stack.reverse.foldl (fun st r => releaseResource r st) s

/-- On-disk reference to a cloned repository. -/
structure RepoHandle where
  name : String
  localDir : String
  deriving DecidableEq, Repr

/-- Field state of `TemporalCodingRepository` relevant to the `_git`/`_repo`
guard and to `cleanup`: the optional cloned-repository handle. -/
structure TemporalRepo where
  branchName : String
  clonedRepo : Option RepoHandle
  deriving DecidableEq, Repr

/-- Message of the guard error raised before `setup()` has completed. -/
def notSetUpMsg : String := "cloned_repo is not set. Did you call setup()?"

/-- The `_git` / `_repo` property (renv.py lines 43-49, test_oh.py lines
122-128): raise `TemporalCodingRepositoryError` when `cloned_repo` is
unset, otherwise return it. -/
def TemporalRepo.gitOf (r : TemporalRepo) : Except RepoError RepoHandle :=
  match r.clonedRepo with
  | none => .error (.notSetUp notSetUpMsg)
  | some g => .ok g

/-- The `local_dir` property: `self._git.local_dir`. -/
def TemporalRepo.localDir (r : TemporalRepo) : Except RepoError String :=
  r.gitOf.map (fun g => g.localDir)

/-- Operation `checkout` on the cloned repository (used by `_create_branch` with
`create=True` and by `solve_exam` with `create=False`): the git arguments
actually run, behind the `_git` guard. -/
def TemporalRepo.checkout (r : TemporalRepo) (branch : String)
    (create : Bool) : Except RepoError (List String) :=
  r.gitOf.map (fun _ =>
    if create then ["checkout", "-b", branch] else ["checkout", branch])

/-- Operation `push_exam` behind the `_repo` guard: the first statement of the body
(`self._repo.add()`) already evaluates the guard, so with `cloned_repo`
unset the checkpoint raises before any git action runs. -/
def TemporalRepo.pushExam (r : TemporalRepo) (st : GitState)
    (runTests : Bool) (test : ProcRun) :
    Except RepoError (GitState × List GitEvent × Except RepoError Nat) :=
  r.gitOf.map (fun _ => TestOh.pushExam st runTests test)

/-- Filesystem facts consulted by `cleanup`: whether the cloned directory
still exists, and whether `shutil.rmtree` would fail on it. -/
structure CleanupWorld where
  dirExists : Bool
  rmtreeRaises : Bool
  deriving DecidableEq, Repr

/-- Embedding of `TemporalCodingRepository.cleanup` (renv.py lines 108-119, test_oh.py
lines 227-238): when `cloned_repo` is set and its directory exists,
`shutil.rmtree` it, wrapping any failure in a
`TemporalCodingRepositoryError`; otherwise do nothing.  The `cloned_repo`
field is left untouched in every branch. -/
def TemporalRepo.cleanup (w : CleanupWorld) (r : TemporalRepo) :
    CleanupWorld × TemporalRepo × Except RepoError Unit :=
  match r.clonedRepo with
  | none => (w, r, .ok ())
  | some _ =>
    if w.dirExists then
      if w.rmtreeRaises then
        (w, r, .error (.cleanupFailed "Cleanup failed"))
      else
        ({ w with dirExists := false }, r, .ok ())
    else (w, r, .ok ())

/-- Host conditions observed by `MountableDockerWorkspace._start_container`
(workspace.py lines 24-137): which ports `check_port_available` reports
free, what `find_available_tcp_port` returns, whether `docker version`
succeeds, the outcome of `docker run -d`, and whether the health poll
succeeds before its timeout. -/
structure HostEnv where
  free : Nat → Bool
  scan : Nat
  dockerOk : Bool
  runResult : ProcRun
  healthy : Bool

/-- Observable actions of `_start_container`, in order. -/
inductive StartEvent
  | checkPort (p : Nat)
  | checkDocker
  | dockerRun (hostPort : Nat) (name : Nat)
  | healthWait
  deriving DecidableEq, Repr

/-- Failures of `_start_container`; in the source all are `RuntimeError`,
distinguished here by which message they carry. -/
inductive StartError
  | portUnavailable (p : Nat)
  | dockerUnavailable
  | containerStartFailed (stderr : String)
  | healthTimeout
  deriving DecidableEq, Repr

/-- Embedding of `MountableDockerWorkspace._start_container`: resolve the host port
(scan when `host_port` is `None`), verify its availability, verify the
two auxiliary ports when `extra_ports` is set, verify the docker engine,
launch the container under the name `agent-server-<uuid4>`, and wait for
health.  Returns the events that executed and either the bound host port
or the first error raised. -/
def startContainer (env : HostEnv) (uuid : Nat) (hostPort : Option Nat)
    (extraPorts : Bool) : List StartEvent × Except StartError Nat :=
  let port := match hostPort with
    | none => env.scan
    | some p => p
  if env.free port = false then
    ([.checkPort port], .error (.portUnavailable port))
  else if extraPorts = true ∧ env.free (port + 1) = false then
    ([.checkPort port, .checkPort (port + 1)],
      .error (.portUnavailable (port + 1)))
  else if extraPorts = true ∧ env.free (port + 2) = false then
    ([.checkPort port, .checkPort (port + 1), .checkPort (port + 2)],
      .error (.portUnavailable (port + 2)))
  else
    let checks := if extraPorts then
        [StartEvent.checkPort port, .checkPort (port + 1),
          .checkPort (port + 2)]
      else [StartEvent.checkPort port]
    if env.dockerOk = false then
      (checks ++ [.checkDocker], .error .dockerUnavailable)
    else if env.runResult.exitCode ≠ 0 then
      (checks ++ [.checkDocker, .dockerRun port uuid],
        .error (.containerStartFailed env.runResult.stderr))
    else if env.healthy = false then
      (checks ++ [.checkDocker, .dockerRun port uuid, .healthWait],
        .error .healthTimeout)
    else
      (checks ++ [.checkDocker, .dockerRun port uuid, .healthWait],
        .ok port)

/-- A host where ports 9000 and 8011 are taken, everything else is free,
the scanner proposes 8010, and docker is healthy. -/
def envA : HostEnv :=
  { free := fun p => decide (¬(p = 9000 ∨ p = 8011)),
    scan := 8010,
    dockerOk := true,
    runResult := { exitCode := 0, stdout := "cid", stderr := "" },
    healthy := true }

/-- One row of the shared `exams_data` results list, with the lock
discipline under which it was appended. -/
structure ResultEntry where
  topicTitle : String
  status : String
  underLock : Bool
  deriving DecidableEq, Repr

/-- A `CodingExam` record (`src/adapter/exam/exam.py`). -/
structure CodingExamRec where
  id : String
  solutionCommit : Nat
  problemCommit : Nat
  question : String
  deriving DecidableEq, Repr

/-- Embedding of `process_topic` from `src/create_coding_exam.py` (lines 260-330): run
the usefulness filter (outside the try block), then under the semaphore
run the attempt inside `try/except Exception`; a raised attempt error is
logged with the topic identity and appended to `exams_data` as a failed
entry under `exams_lock`; a successful exam appends a generated entry
under the lock; a `None` exam only logs a warning.  The result is the
list of appended entries plus the exception, if any, escaping the
coroutine. -/
def processTopic (topicTitle : String)
    (usefulOutcome : PyResult Bool)
    (genOutcome : PyResult (Option CodingExamRec)) :
    List ResultEntry × Option String :=
  match usefulOutcome with
  | .raised e => ([], some e)
  | .ok false => ([], none)
  | .ok true =>
    match genOutcome with
    | .raised e =>
      ([{ topicTitle := topicTitle, status := "failed: " ++ e,
          underLock := true }], none)
    | .ok none => ([], none)
    | .ok (some _) =>
      ([{ topicTitle := topicTitle, status := "generated",
          underLock := true }], none)

/-- Keyword parameters accepted by `RustCodingEnvironment.push_exam`
(renv.py line 204): only `message`.  The `test_oh.py` variant also
accepts `run_tests`; the refactored method dropped it. -/
def renvPushExamKeywords : List String := ["message"]

/-- Python keyword-argument dispatch for `env.push_exam(...)`: passing a
keyword the method does not accept raises `TypeError` before the body
runs. -/
def callRenvPushExam (kwargs : List String) (st : GitState) :
    PyResult (GitState × List GitEvent × Option Nat) :=
  if kwargs.all (fun k => renvPushExamKeywords.contains k) then
    .ok (Renv.pushExam st)
  else
    .raised "TypeError: push_exam got an unexpected keyword argument"

/-- Embedding of `generate_exam` from `src/create_coding_exam.py` (lines 93-190),
after the agent phases: the solution checkpoint is
`env.push_exam(message=...)`; a falsy hash returns `None`; the problem
checkpoint is `env.push_exam(message=..., run_tests=False)`; a falsy
hash returns `None`; otherwise the `CodingExam` record is built from
both hashes.  Whether each agent phase left staged changes is an input
(`phase1Changes`, `phase2Changes`). -/
def generateExam (st0 : GitState) (phase1Changes phase2Changes : Bool)
    (question : String) : PyResult (Option CodingExamRec) :=
  let st1 : GitState := { st0 with treeHasChanges := phase1Changes }
  match callRenvPushExam ["message"] st1 with
  | .raised e => .raised e
  | .ok (st1b, _, solutionHash) =>
    match solutionHash with
    | none => .ok none
    | some sol =>
      let st2 : GitState := { st1b with treeHasChanges := phase2Changes }
      match callRenvPushExam ["message", "run_tests"] st2 with
      | .raised e => .raised e
      | .ok (_, _, problemHash) =>
        match problemHash with
        | none => .ok none
        | some prob =>
          .ok (some { id := "exam", solutionCommit := sol,
                      problemCommit := prob, question := question })

/-- Does a `generate_exam` outcome carry a completed exam record? -/
def producesRecord : PyResult (Option CodingExamRec) → Bool
  | .ok (some _) => true
  | _ => false

/-- A live sandbox: its bound base host port and the uuid suffix of its
container name `agent-server-<uuid4>`. -/
structure SandboxRec where
  port : Nat
  name : Nat
  deriving DecidableEq, Repr

/-- The host ports one container launch claims: the base port, plus the
two sequential auxiliary ports when extra service ports are requested
(workspace.py lines 48-56 and 84-91). -/
def portsClaimed (p : Nat) (extra : Bool) : List Nat :=
  if extra then [p, p + 1, p + 2] else [p]

/-- Shared host state seen by concurrently running `_start_container`
calls: the OS port table, attempts that have probed but not yet launched
(the probe-to-launch window is where two attempts can interleave), the
live sandboxes, the fresh uuid supply for container names, and the
number of attempts that failed fast. -/
structure PoolState where
  bound : List Nat
  pending : List (Nat × Bool)
  live : List SandboxRec
  nextName : Nat
  failures : Nat
  deriving DecidableEq, Repr

/-- No ports bound, no attempts started. -/
def initPool : PoolState :=
  { bound := [], pending := [], live := [], nextName := 0, failures := 0 }

/-- Interleaved small-step semantics of concurrent `_start_container`
calls.  `probe` is the availability probing (`find_available_tcp_port`
plus the `check_port_available` calls) observing every claimed port
free; `probeConflict` is the probe observing a taken port and raising —
the attempt fails fast, nothing retries it; `bind` is a successful
`docker run -p`, which the OS grants only while the claimed ports are
still unbound, assigning the next globally unique uuid name suffix;
`bindConflict` is `docker run` losing the probe-to-launch race and
erroring out, again with no retry. -/
inductive PoolStep : PoolState → PoolState → Prop
  | probe (s : PoolState) (p : Nat) (extra : Bool)
      (hfree : ∀ q ∈ portsClaimed p extra, q ∉ s.bound) :
      PoolStep s { s with pending := (p, extra) :: s.pending }
  | probeConflict (s : PoolState) (p : Nat) (extra : Bool)
      (hconf : ∃ q ∈ portsClaimed p extra, q ∈ s.bound) :
      PoolStep s { s with failures := s.failures + 1 }
  | bind (s : PoolState) (p : Nat) (extra : Bool)
      (hp : (p, extra) ∈ s.pending)
      (hfree : ∀ q ∈ portsClaimed p extra, q ∉ s.bound) :
      PoolStep s
        { bound := portsClaimed p extra ++ s.bound,
          pending := s.pending.erase (p, extra),
          live := { port := p, name := s.nextName } :: s.live,
          nextName := s.nextName + 1,
          failures := s.failures }
  | bindConflict (s : PoolState) (p : Nat) (extra : Bool)
      (hp : (p, extra) ∈ s.pending)
      (hconf : ∃ q ∈ portsClaimed p extra, q ∈ s.bound) :
      PoolStep s
        { s with pending := s.pending.erase (p, extra),
                 failures := s.failures + 1 }

/-- States reachable from the initial pool by interleaved starts. -/
inductive PoolReach : PoolState → Prop
  | init : PoolReach initPool
  | step (s s2 : PoolState) (hr : PoolReach s) (hs : PoolStep s s2) :
      PoolReach s2

/-- Inductive invariant: every live sandbox holds a bound port and a name
drawn below the fresh supply, and live ports and names are duplicate
free. -/
def PoolInv (s : PoolState) : Prop :=
  (∀ sb ∈ s.live, sb.port ∈ s.bound ∧ sb.name < s.nextName) ∧
  (s.live.map SandboxRec.port).Nodup ∧
  (s.live.map SandboxRec.name).Nodup

/-- Pool state after two interleaved successful starts on ports 8000 and
8001. -/
def poolDemo : PoolState :=
  { bound := [8001, 8000], pending := [],
    live := [{ port := 8001, name := 1 }, { port := 8000, name := 0 }],
    nextName := 2, failures := 0 }

/-- A git state with staged changes (non-empty porcelain status). -/
def dirtySt : GitState :=
  { localCommits := [7], remoteCommits := [7], treeHasChanges := true }

/-- A git state with an empty porcelain status after staging. -/
def cleanSt : GitState :=
  { localCommits := [7], remoteCommits := [7], treeHasChanges := false }

/-- A failing `cargo test` run. -/
def failRun : ProcRun :=
  { exitCode := 101, stdout := "", stderr := "assert failed" }

/-- A passing `cargo test` run. -/
def passRun : ProcRun :=
  { exitCode := 0, stdout := "ok", stderr := "" }

/-- A cloned-repository handle used in concrete witnesses. -/
def sampleHandle : RepoHandle :=
  { name := "rust-benchmarks-cloned", localDir := "/tmp/clone" }

/-- A temporal repository whose `setup()` has not completed. -/
def unsetRepo : TemporalRepo :=
  { branchName := "repo-1", clonedRepo := none }

/-- A temporal repository after a successful `setup()`. -/
def setRepo : TemporalRepo :=
  { branchName := "repo-1", clonedRepo := some sampleHandle }

end Adapter

namespace Adapter

/-- Claim C1: on a set-up workspace, a checkpoint call with verification
enabled (`test_oh.py` `push_exam` with `run_tests=True`) whose test
command exits non-zero raises an error carrying the captured output and
performs no commit and no push, leaving the working tree dirty; moreover
any call of that checkpoint that does push either had verification
skipped or a zero test exit, and the `renv.py` checkpoint never runs the
test command at all (all its pushes are verification-skipped). -/
theorem push_exam_verification_gate :
    (∀ (st : GitState) (test : ProcRun),
      st.treeHasChanges = true → test.exitCode ≠ 0 →
      TestOh.pushExam st true test =
        (st, [.add, .status, .cargoTest],
          Except.error (.cargoTestFailed test.captured))) ∧
    (∀ (st : GitState) (runTests : Bool) (test : ProcRun),
      GitEvent.push ∈ (TestOh.pushExam st runTests test).2.1 →
        runTests = false ∨ test.exitCode = 0) ∧
    (∀ st : GitState, GitEvent.cargoTest ∉ (Renv.pushExam st).2.1) := by
  refine ⟨?_, ?_, ?_⟩
  · intro st test h1 h2
    simp [TestOh.pushExam, h1, h2]
  · intro st runTests test h
    by_cases hc : st.treeHasChanges = false
    · simp [TestOh.pushExam, hc] at h
    · by_cases hr : runTests
      · by_cases he : test.exitCode = 0
        · exact Or.inr he
        · simp [TestOh.pushExam, hc, hr, he] at h
      · exact Or.inl (by simpa using hr)
  · intro st
    by_cases hc : st.treeHasChanges = false <;>
      simp [Renv.pushExam, hc]

/-- Witness for C1 at a concrete dirty state and failing test run. -/
theorem push_exam_verification_gate_witness :
    TestOh.pushExam dirtySt true failRun =
      (dirtySt, [.add, .status, .cargoTest],
        Except.error (.cargoTestFailed failRun.captured)) ∧
    (false = false ∨ passRun.exitCode = 0) ∧
    GitEvent.cargoTest ∉ (Renv.pushExam dirtySt).2.1 :=
  ⟨push_exam_verification_gate.1 dirtySt failRun rfl (by decide),
   push_exam_verification_gate.2.1 dirtySt false passRun (by decide),
   push_exam_verification_gate.2.2 dirtySt⟩

/-- Counterexample to C4 as stated: in `test_oh.py`, a `push_exam` call
with an empty porcelain status returns the pre-existing HEAD hash — a
present value, not an absent one. -/
theorem push_exam_no_change_cex :
    cleanSt.treeHasChanges = false ∧
    (TestOh.pushExam cleanSt true passRun).2.2.toOption =
      some cleanSt.headCommit ∧
    (TestOh.pushExam cleanSt true passRun).2.2.toOption ≠ none := by
  refine ⟨rfl, rfl, ?_⟩
  intro h
  simp [TestOh.pushExam, cleanSt, Except.toOption] at h

/-- Claim C4 (amended): a checkpoint call on a set-up workspace whose
staging leaves the porcelain status empty creates no commit and performs
no push; `RustCodingEnvironment.push_exam` (renv.py) returns `None`,
while the `test_oh.py` `push_exam` instead returns the pre-existing HEAD
hash, in both cases as a non-error outcome. -/
theorem push_exam_no_change (st : GitState)
    (h : st.treeHasChanges = false) :
    Renv.pushExam st = (st, [.add, .status], none) ∧
    (∀ (runTests : Bool) (test : ProcRun),
      TestOh.pushExam st runTests test =
        (st, [.add, .status, .revParse], Except.ok st.headCommit)) ∧
    GitEvent.commit ∉ (Renv.pushExam st).2.1 ∧
    GitEvent.push ∉ (Renv.pushExam st).2.1 := by
  refine ⟨by simp [Renv.pushExam, h], ?_, ?_, ?_⟩
  · intro runTests test
    simp [TestOh.pushExam, h]
  · simp [Renv.pushExam, h]
  · simp [Renv.pushExam, h]

/-- Helper: the permission fix always returns normally. -/
theorem chmod777_ok (chmodRun : ProcRun) : chmod777 chmodRun = .ok () := by
  by_cases h : chmodRun.exitCode = 0 <;> simp [chmod777, runChecked, h]

/-- Claim C2: a `RustCodingEnvironment` scope releases both owned
resources on every kind of exit, in reverse acquisition order: the
container workspace is torn down before the temporal repository
directory is deleted, via the `ExitStack` unwind. -/
theorem renv_scope_teardown (k : ExitKind) (s : EnvState) :
    (exitStackUnwind k renvEnterStack s).containerRunning = false ∧
    (exitStackUnwind k renvEnterStack s).tempDirExists = false ∧
    (exitStackUnwind k renvEnterStack s).releaseTrace =
      s.releaseTrace ++ [.workspace, .tempRepo] ∧
    renvEnterStack.reverse = [Resource.workspace, Resource.tempRepo] := by
  refine ⟨?_, ?_, ?_, rfl⟩ <;>
    simp [exitStackUnwind, renvEnterStack, releaseResource]

/-- Claim C7: a git operation on a `TemporalCodingRepository` whose
`setup()` has not completed raises the specific guard error naming
`cloned_repo`, and never silently no-ops. -/
theorem unset_repo_git_ops_raise (r : TemporalRepo)
    (h : r.clonedRepo = none) :
    r.localDir = .error (.notSetUp notSetUpMsg) ∧
    (∀ (branch : String) (create : Bool),
      r.checkout branch create = .error (.notSetUp notSetUpMsg)) ∧
    (∀ (st : GitState) (runTests : Bool) (test : ProcRun),
      r.pushExam st runTests test = .error (.notSetUp notSetUpMsg)) := by
  refine ⟨?_, ?_, ?_⟩ <;>
    simp [TemporalRepo.localDir, TemporalRepo.checkout,
      TemporalRepo.pushExam, TemporalRepo.gitOf, h, Except.map]

/-- Witness for C7 at a concrete not-yet-set-up repository. -/
theorem unset_repo_git_ops_raise_witness :
    unsetRepo.localDir = .error (.notSetUp notSetUpMsg) ∧
    unsetRepo.checkout "repo-1" true = .error (.notSetUp notSetUpMsg) ∧
    unsetRepo.pushExam dirtySt true failRun =
      .error (.notSetUp notSetUpMsg) :=
  ⟨(unset_repo_git_ops_raise unsetRepo rfl).1,
   (unset_repo_git_ops_raise unsetRepo rfl).2.1 "repo-1" true,
   (unset_repo_git_ops_raise unsetRepo rfl).2.2 dirtySt true failRun⟩

/-- Counterexample to C8 as stated: after a successful `cleanup()` on a
set-up repository, the `cloned_repo` field is still set — the code never
clears it. -/
theorem cleanup_keeps_cloned_repo_cex :
    (TemporalRepo.cleanup ⟨true, false⟩ setRepo).2.2 = .ok () ∧
    (TemporalRepo.cleanup ⟨true, false⟩ setRepo).1.dirExists = false ∧
    (TemporalRepo.cleanup ⟨true, false⟩ setRepo).2.1.clonedRepo ≠ none := by
  refine ⟨rfl, rfl, ?_⟩
  simp [TemporalRepo.cleanup, setRepo]

/-- Claim C8 (amended): `cleanup()` is idempotent; it no-ops when the
cloned directory does not exist, deletes it recursively otherwise, and
wraps an underlying deletion failure in a raised error rather than
swallowing it; after a successful cleanup the directory is gone but the
`cloned_repo` field is NOT cleared — it retains its value. -/
theorem cleanup_idempotent (w : CleanupWorld) (r : TemporalRepo) :
    (w.dirExists = false ∨ r.clonedRepo = none →
      TemporalRepo.cleanup w r = (w, r, .ok ())) ∧
    (r.clonedRepo ≠ none → w.dirExists = true → w.rmtreeRaises = false →
      TemporalRepo.cleanup w r =
        ({ w with dirExists := false }, r, .ok ())) ∧
    (r.clonedRepo ≠ none → w.dirExists = true → w.rmtreeRaises = true →
      TemporalRepo.cleanup w r =
        (w, r, .error (.cleanupFailed "Cleanup failed"))) ∧
    ((TemporalRepo.cleanup w r).2.2 = .ok () →
      TemporalRepo.cleanup (TemporalRepo.cleanup w r).1
          (TemporalRepo.cleanup w r).2.1 =
        ((TemporalRepo.cleanup w r).1, (TemporalRepo.cleanup w r).2.1,
          .ok ())) ∧
    (TemporalRepo.cleanup w r).2.1.clonedRepo = r.clonedRepo := by
  obtain ⟨d, rt⟩ := w
  obtain ⟨b, cr⟩ := r
  cases cr <;> cases d <;> cases rt <;>
    simp [TemporalRepo.cleanup]

/-- Witness for C8 (amended): concrete delete-then-no-op run. -/
theorem cleanup_idempotent_witness :
    TemporalRepo.cleanup ⟨true, false⟩ setRepo =
      ({ dirExists := false, rmtreeRaises := false }, setRepo, .ok ()) ∧
    TemporalRepo.cleanup ⟨false, false⟩ setRepo =
      (⟨false, false⟩, setRepo, .ok ()) ∧
    (TemporalRepo.cleanup ⟨true, false⟩ setRepo).2.1.clonedRepo =
      setRepo.clonedRepo :=
  ⟨(cleanup_idempotent ⟨true, false⟩ setRepo).2.1 (by decide) rfl rfl,
   (cleanup_idempotent ⟨false, false⟩ setRepo).1 (Or.inl rfl),
   (cleanup_idempotent ⟨true, false⟩ setRepo).2.2.2.2⟩

/-- Claim C10: a failure of `chmod -R 777` is logged and swallowed —
`chmod_777` always returns normally, and the results of `checkout`,
`add`, and the setup tail are independent of the chmod exit code; they
fail only for their own git reasons. -/
theorem chmod_failure_swallowed :
    (∀ chmodRun : ProcRun, chmod777 chmodRun = .ok ()) ∧
    (∀ gitRun chmodRun chmodRun2 : ProcRun,
      gitCheckout gitRun chmodRun = gitCheckout gitRun chmodRun2 ∧
      gitAdd chmodRun gitRun = gitAdd chmodRun2 gitRun ∧
      setupFinish chmodRun = setupFinish chmodRun2) ∧
    (∀ gitRun chmodRun : ProcRun, gitRun.exitCode = 0 →
      gitCheckout gitRun chmodRun = .ok gitRun.stdout ∧
      gitAdd chmodRun gitRun = .ok gitRun.stdout ∧
      setupFinish chmodRun = .ok ()) := by
  refine ⟨chmod777_ok, ?_, ?_⟩
  · intro gitRun c c2
    refine ⟨?_, ?_, ?_⟩ <;>
      simp [gitCheckout, gitAdd, setupFinish, chmod777_ok]
  · intro gitRun c h
    refine ⟨?_, ?_, ?_⟩ <;>
      simp [gitCheckout, gitAdd, setupFinish, chmod777_ok, runChecked, h]

/-- Witness for C10 at a concrete failing chmod run. -/
theorem chmod_failure_swallowed_witness :
    chmod777 failRun = .ok () ∧
    (passRun.exitCode = 0) ∧
    gitCheckout passRun failRun = .ok passRun.stdout ∧
    gitAdd failRun passRun = .ok passRun.stdout :=
  ⟨chmod_failure_swallowed.1 failRun, rfl,
   (chmod_failure_swallowed.2.2 passRun failRun rfl).1,
   (chmod_failure_swallowed.2.2 passRun failRun rfl).2.1⟩

/-- Witness for C4 (amended) at a concrete clean state. -/
theorem push_exam_no_change_witness :
    Renv.pushExam cleanSt = (cleanSt, [.add, .status], none) ∧
    TestOh.pushExam cleanSt false passRun =
      (cleanSt, [.add, .status, .revParse], Except.ok cleanSt.headCommit) :=
  ⟨(push_exam_no_change cleanSt rfl).1,
   (push_exam_no_change cleanSt rfl).2.1 false passRun⟩

/-- Claim C6: with `host_port` unset, `_start_container` uses the scanned
port for the launch; a caller-supplied unavailable port raises a
port-unavailable error with no container launched; and with extra
service ports requested, the start fails fast (still unlaunched) unless
the next two sequential ports are also free. -/
theorem start_container_port_policy :
    (∀ (env : HostEnv) (uuid : Nat) (extraPorts : Bool) (p : Nat),
      (startContainer env uuid none extraPorts).2 = .ok p →
        p = env.scan) ∧
    (∀ (env : HostEnv) (uuid p : Nat) (extraPorts : Bool),
      env.free p = false →
        startContainer env uuid (some p) extraPorts =
          ([.checkPort p], .error (.portUnavailable p)) ∧
        (∀ q n, StartEvent.dockerRun q n ∉
          (startContainer env uuid (some p) extraPorts).1)) ∧
    (∀ (env : HostEnv) (uuid p : Nat),
      env.free p = true →
      (env.free (p + 1) = false ∨ env.free (p + 2) = false) →
        ((startContainer env uuid (some p) true).2 =
            .error (.portUnavailable (p + 1)) ∨
          (startContainer env uuid (some p) true).2 =
            .error (.portUnavailable (p + 2))) ∧
        (∀ q n, StartEvent.dockerRun q n ∉
          (startContainer env uuid (some p) true).1)) := by
  refine ⟨?_, ?_, ?_⟩
  · intro env uuid extraPorts p h
    by_cases h1 : env.free env.scan = false
    · simp [startContainer, h1] at h
    · by_cases h2 : extraPorts = true ∧ env.free (env.scan + 1) = false
      · simp [startContainer, h1, h2] at h
      · by_cases h3 : extraPorts = true ∧ env.free (env.scan + 2) = false
        · by_cases hm : env.free (env.scan + 1) = false <;>
            simp [startContainer, h1, h2, h3, hm] at h
        · by_cases h4 : env.dockerOk = false
          · simp [startContainer, h1, h2, h3, h4] at h
          · by_cases h5 : env.runResult.exitCode = 0
            · by_cases h6 : env.healthy = false
              · simp [startContainer, h1, h2, h3, h4, h5, h6] at h
              · simp [startContainer, h1, h2, h3, h4, h5, h6] at h
                exact h.symm
            · simp [startContainer, h1, h2, h3, h4, h5] at h
  · intro env uuid p extraPorts h
    refine ⟨by simp [startContainer, h], ?_⟩
    intro q n
    simp [startContainer, h]
  · intro env uuid p h1 h2
    rcases h2 with h2 | h2
    · constructor
      · exact Or.inl (by simp [startContainer, h1, h2])
      · intro q n
        simp [startContainer, h1, h2]
    · by_cases h3 : env.free (p + 1) = false
      · constructor
        · exact Or.inl (by simp [startContainer, h1, h3])
        · intro q n
          simp [startContainer, h1, h3]
      · constructor
        · exact Or.inr (by simp [startContainer, h1, h2, h3])
        · intro q n
          simp [startContainer, h1, h2, h3]

/-- Witness for C6 on the concrete host `envA`: the scanner port is used
on success; the taken port 9000 fails fast unlaunched; port 8010 with
extra ports fails on 8011. -/
theorem start_container_port_policy_witness :
    (8010 : Nat) = envA.scan ∧
    startContainer envA 1 (some 9000) false =
      ([.checkPort 9000], .error (.portUnavailable 9000)) ∧
    ((startContainer envA 2 (some 8010) true).2 =
        .error (.portUnavailable 8011) ∨
      (startContainer envA 2 (some 8010) true).2 =
        .error (.portUnavailable 8012)) :=
  ⟨start_container_port_policy.1 envA 1 false 8010 rfl,
   (start_container_port_policy.2.1 envA 1 9000 false (by decide)).1,
   (start_container_port_policy.2.2 envA 2 8010 (by decide)
      (Or.inl (by decide))).1⟩

/-- Claim C9: in `process_topic`, an error raised by the exam-generation
attempt never escapes the coroutine; it is recorded under the lock as a
failed entry carrying the topic identity and the error text, and every
mutation of the shared results list happens under the lock. -/
theorem process_topic_catches_errors (topicTitle : String)
    (usefulOutcome : PyResult Bool)
    (genOutcome : PyResult (Option CodingExamRec)) :
    (∀ e, genOutcome = .raised e →
      processTopic topicTitle (.ok true) genOutcome =
        ([{ topicTitle := topicTitle, status := "failed: " ++ e,
            underLock := true }], none)) ∧
    (processTopic topicTitle (.ok true) genOutcome).2 = none ∧
    (∀ entry ∈ (processTopic topicTitle usefulOutcome genOutcome).1,
      entry.underLock = true) := by
  refine ⟨?_, ?_, ?_⟩
  · intro e he
    subst he
    rfl
  · cases genOutcome with
    | raised e => rfl
    | ok o => cases o <;> rfl
  · intro entry hentry
    cases usefulOutcome with
    | raised e => simp [processTopic] at hentry
    | ok b =>
      cases b
      · simp [processTopic] at hentry
      · cases genOutcome with
        | raised e =>
          simp [processTopic] at hentry
          simp [hentry]
        | ok o =>
          cases o with
          | none => simp [processTopic] at hentry
          | some ex =>
            simp [processTopic] at hentry
            simp [hentry]

/-- Witness for C9 at a concrete raising attempt. -/
theorem process_topic_catches_errors_witness :
    processTopic "ndarray-broadcast" (.ok true) (.raised "boom") =
      ([{ topicTitle := "ndarray-broadcast", status := "failed: boom",
          underLock := true }], none) ∧
    (processTopic "ndarray-broadcast" (.ok true)
      (.raised "boom")).2 = none :=
  ⟨(process_topic_catches_errors "ndarray-broadcast" (.ok true)
      (.raised "boom")).1 "boom" rfl,
   (process_topic_catches_errors "ndarray-broadcast" (.ok true)
      (.raised "boom")).2.1⟩

/-- Helper: the invariant holds initially. -/
theorem poolInv_init : PoolInv initPool := by
  refine ⟨?_, ?_, ?_⟩ <;> simp [PoolInv, initPool]

/-- Helper: every interleaved step preserves the pool invariant. -/
theorem poolInv_step (s s2 : PoolState) (h : PoolInv s)
    (hs : PoolStep s s2) : PoolInv s2 := by
  obtain ⟨hmem, hports, hnames⟩ := h
  cases hs with
  | probe p extra hfree => exact ⟨hmem, hports, hnames⟩
  | probeConflict p extra hconf => exact ⟨hmem, hports, hnames⟩
  | bindConflict p extra hp hconf => exact ⟨hmem, hports, hnames⟩
  | bind p extra hp hfree =>
    have hpbase : p ∈ portsClaimed p extra := by
      cases extra <;> simp [portsClaimed]
    refine ⟨?_, ?_, ?_⟩
    · intro sb hsb
      rcases List.mem_cons.mp hsb with hsb | hsb
      · subst hsb
        exact ⟨List.mem_append_left _ hpbase, Nat.lt_succ_self _⟩
      · obtain ⟨hb, hn⟩ := hmem sb hsb
        exact ⟨List.mem_append_right _ hb, Nat.lt_succ_of_lt hn⟩
    · refine List.Nodup.cons ?_ hports
      intro hmemp
      obtain ⟨sb, hsb, hpe⟩ := List.mem_map.mp hmemp
      have hpe2 : sb.port = p := hpe
      exact hfree p hpbase (hpe2 ▸ (hmem sb hsb).1)
    · refine List.Nodup.cons ?_ hnames
      intro hmemn
      obtain ⟨sb, hsb, hne⟩ := List.mem_map.mp hmemn
      have hne2 : sb.name = s.nextName := hne
      exact absurd (hne2 ▸ (hmem sb hsb).2) (Nat.lt_irrefl _)

/-- Helper: the invariant holds in every reachable pool state. -/
theorem poolInv_reach (s : PoolState) (h : PoolReach s) : PoolInv s := by
  induction h with
  | init => exact poolInv_init
  | step s s2 hr hs ih => exact poolInv_step s s2 ih hs

/-- Helper: the two-sandbox demonstration state is reachable. -/
theorem poolDemo_reach : PoolReach poolDemo := by
  have r0 : PoolReach initPool := PoolReach.init
  have r1 := PoolReach.step _ _ r0
    (PoolStep.probe initPool 8000 false (by decide))
  have r2 := PoolReach.step _ _ r1
    (PoolStep.bind _ 8000 false (by decide) (by decide))
  have r3 := PoolReach.step _ _ r2
    (PoolStep.probe _ 8001 false (by decide))
  have r4 := PoolReach.step _ _ r3
    (PoolStep.bind _ 8001 false (by decide) (by decide))
  exact r4

/-- Claim C3: in every reachable interleaving of concurrent sandbox
starts, no two distinct live sandboxes hold the same host port or the
same container name; names come from a globally unique supply, binds
happen only from a prior availability probe, and a conflict only
increments the failure count — the step relation has no transition that
retries a failed attempt, so conflicts fail fast. -/
theorem sandbox_no_collision (s : PoolState) (h : PoolReach s) :
    (∀ sb1 ∈ s.live, ∀ sb2 ∈ s.live, sb1 ≠ sb2 →
      sb1.port ≠ sb2.port ∧ sb1.name ≠ sb2.name) ∧
    (∀ s2 : PoolState, PoolStep s s2 →
      s.failures ≤ s2.failures ∧ s2.live.length ≤ s.live.length + 1) := by
  obtain ⟨hmem, hports, hnames⟩ := poolInv_reach s h
  constructor
  · intro sb1 h1 sb2 h2 hne
    constructor
    · intro hpp
      exact hne (List.inj_on_of_nodup_map hports h1 h2 hpp)
    · intro hnn
      exact hne (List.inj_on_of_nodup_map hnames h1 h2 hnn)
  · intro s2 hs
    cases hs <;> exact ⟨by simp, by simp⟩

/-- Witness for C3: the reachable two-sandbox state has distinct ports
and distinct names. -/
theorem sandbox_no_collision_witness :
    PoolReach poolDemo ∧
    ({ port := 8001, name := 1 } : SandboxRec).port ≠
      ({ port := 8000, name := 0 } : SandboxRec).port ∧
    ({ port := 8001, name := 1 } : SandboxRec).name ≠
      ({ port := 8000, name := 0 } : SandboxRec).name := by
  refine ⟨poolDemo_reach, ?_⟩
  exact (sandbox_no_collision poolDemo poolDemo_reach).1
    { port := 8001, name := 1 } (by decide)
    { port := 8000, name := 0 } (by decide) (by decide)

/-- Claim C5 (code bug): `generate_exam` in `create_coding_exam.py` can
never yield a `CodingExam` record, because its problem-phase checkpoint
calls `env.push_exam(message=..., run_tests=False)` while
`RustCodingEnvironment.push_exam` accepts only `message`; whenever the
solution phase produced a commit, the problem-phase call raises
`TypeError` instead of checkpointing. -/
theorem generate_exam_problem_phase_type_error :
    (∀ (st0 : GitState) (p1 p2 : Bool) (q : String),
      producesRecord (generateExam st0 p1 p2 q) = false) ∧
    generateExam cleanSt true true "q" =
      .raised "TypeError: push_exam got an unexpected keyword argument" := by
  constructor
  · intro st0 p1 p2 q
    cases p1 <;>
      simp [generateExam, callRenvPushExam, renvPushExamKeywords,
        Renv.pushExam, producesRecord]
  · rfl

end Adapter
